import Mathlib

/-!
Verification of the fixed-window rate limiter (storage.MemoryStorage and
ratelimiter.RateLimiter.Allow) against its specification.

Embedding conventions:
- `time.Time` and `time.Duration` are modelled as `Int` nanoseconds; the Go
  zero time (`time.Time{}`, for which `IsZero()` holds) is `0`.
- The client map `map[string]*ClientData` is modelled as a function
  `String → Option ClientData`; each store operation holds the mutex for its
  whole body in the source, so it is embedded as a pure state transformer.
- Go `int(d.Seconds())` converts nanoseconds to whole seconds truncating
  toward zero, embedded as `Int.div` by `10^9`.
-/

namespace RateLimit

/-- Mirrors `storage.ClientData`: per-client counting state. -/
structure ClientData where
  RequestCount : Int
  WindowStart : Int
  BlockedUntil : Int
  deriving DecidableEq, Repr

/-- The client map of `storage.MemoryStorage`, restricted to its contents. -/
abbrev MemoryStorage := String → Option ClientData

/-- Mirrors `storage.NewMemoryStorage`: an empty client map. -/
def emptyStorage : MemoryStorage := fun _ => none

/-- Map update at one key (Go `s.clients[clientID] = data`). -/
def setClient (s : MemoryStorage) (clientID : String) (d : ClientData) : MemoryStorage :=
  fun k => if k = clientID then some d else s k

/-- Mirrors `MemoryStorage.GetClientData` (the returned copy is the value). -/
def GetClientData (s : MemoryStorage) (clientID : String) : Option ClientData :=
  s clientID

/-- Mirrors `MemoryStorage.SetClientData`. -/
def SetClientData (s : MemoryStorage) (clientID : String) (d : ClientData) : MemoryStorage :=
  setClient s clientID d

/-- Mirrors `MemoryStorage.IncrementRequestCount`; the absent-key branch of the
source stamps `WindowStart` with `time.Now()`, passed here as `now`. -/
def IncrementRequestCount (s : MemoryStorage) (clientID : String) (now : Int) :
    MemoryStorage × Int :=
  match s clientID with
  | some d =>
      (setClient s clientID ⟨d.RequestCount + 1, d.WindowStart, d.BlockedUntil⟩,
       d.RequestCount + 1)
  | none => (setClient s clientID ⟨1, now, 0⟩, 1)

/-- Mirrors `MemoryStorage.ResetWindow`. -/
def ResetWindow (s : MemoryStorage) (clientID : String) (windowStart : Int) : MemoryStorage :=
  setClient s clientID ⟨1, windowStart, 0⟩

/-- Mirrors `MemoryStorage.BlockClient` (no-op when the key is absent). -/
def BlockClient (s : MemoryStorage) (clientID : String) (blockedUntil : Int) : MemoryStorage :=
  match s clientID with
  | some d => setClient s clientID ⟨d.RequestCount, d.WindowStart, blockedUntil⟩
  | none => s

/-- Mirrors `MemoryStorage.DeleteClient`. -/
def DeleteClient (s : MemoryStorage) (clientID : String) : MemoryStorage :=
  fun k => if k = clientID then none else s k

/-- Mirrors `MemoryStorage.Clear`. -/
def Clear (_ : MemoryStorage) : MemoryStorage := emptyStorage

/-- Mirrors `MemoryStorage.CheckAndIncrement`.  The source tests, in order:
still blocked (`now.Before(BlockedUntil)`), block expired
(`now.After(BlockedUntil)`), window elapsed (`now.Sub(WindowStart) >=
windowDuration`), key absent, and otherwise increments, setting
`BlockedUntil = now + blockDuration` when the new count exceeds
`maxRequests`.  The absent-key case is listed first here; in the source all
preceding guards require `exists`, so the order is equivalent. -/
def CheckAndIncrement (s : MemoryStorage) (clientID : String) (now : Int)
    (windowDuration : Int) (maxRequests : Int) (blockDuration : Int) :
    MemoryStorage × ClientData × Bool :=
  match s clientID with
  | none => (setClient s clientID ⟨1, now, 0⟩, ⟨1, now, 0⟩, true)
  | some d =>
      if d.BlockedUntil ≠ 0 ∧ now < d.BlockedUntil then
        (s, d, false)
      else if d.BlockedUntil ≠ 0 ∧ d.BlockedUntil < now then
        (setClient s clientID ⟨1, now, 0⟩, ⟨1, now, 0⟩, true)
      else if windowDuration ≤ now - d.WindowStart then
        (setClient s clientID ⟨1, now, 0⟩, ⟨1, now, 0⟩, true)
      else
        let rc := d.RequestCount + 1
        let bu := if maxRequests < rc then now + blockDuration else d.BlockedUntil
        (setClient s clientID ⟨rc, d.WindowStart, bu⟩, ⟨rc, d.WindowStart, bu⟩, true)

/-- The configuration fields of `ratelimiter.RateLimiter` that the decision
logic reads (logging fields omitted: `Allow` only logs on them). -/
structure RateLimiter where
  maxRequests : Int
  windowDuration : Int
  blockDuration : Int
  errorMessage : String
  deriving DecidableEq

/-- Defaults installed by `ratelimiter.New` (durations of one minute). -/
def defaultRateLimiter : RateLimiter :=
  ⟨100, 60000000000, 60000000000, "Rate limit exceeded"⟩

/-- Mirrors `ratelimiter.Result`.  Fields left unset by the source's allowed
branch take their Go zero values (`0`, `""`). -/
structure Result where
  Allowed : Bool
  RequestsMade : Int
  Limit : Int
  RetryAfter : Int
  RetryAfterSec : Int
  ErrorMessage : String
  deriving DecidableEq, Repr

def nsPerSecond : Int := 1000000000

/-- Go `int(d.Seconds())`: whole seconds, truncating toward zero. -/
def durSeconds (d : Int) : Int := Int.tdiv d nsPerSecond

/-- Mirrors the current `RateLimiter.Allow` (ratelimiter/limiter.go): one
compound `CheckAndIncrement`, then the denied/exceeded/allowed result.  The
source's `time.Until(data.BlockedUntil)` re-reads the clock; it is embedded
as `data.BlockedUntil - now`. -/
def Allow (rl : RateLimiter) (s : MemoryStorage) (clientID : String) (now : Int) :
    Result × MemoryStorage :=
  match CheckAndIncrement s clientID now rl.windowDuration rl.maxRequests rl.blockDuration with
  | (s2, data, allowed) =>
      if allowed = false then
        let r0 := durSeconds (data.BlockedUntil - now)
        let retryAfterSec := if r0 < 1 then 1 else r0
        (⟨false, data.RequestCount, rl.maxRequests, data.BlockedUntil, retryAfterSec,
          rl.errorMessage⟩, s2)
      else if rl.maxRequests < data.RequestCount then
        (⟨false, data.RequestCount, rl.maxRequests, data.BlockedUntil,
          durSeconds rl.blockDuration, rl.errorMessage⟩, s2)
      else
        (⟨true, data.RequestCount, rl.maxRequests, 0, 0, ""⟩, s2)

/-- Mirrors the earlier `RateLimiter.Allow` variant (separate `GetClientData`,
`ResetWindow`, `SetClientData`/`IncrementRequestCount`, `BlockClient` calls).
The source's `exists` flag, cleared by the two reset branches, is carried as
the second component of `p1`/`p2`. -/
def AllowOld (rl : RateLimiter) (s : MemoryStorage) (clientID : String) (now : Int) :
    Result × MemoryStorage :=
  match GetClientData s clientID with
  | some data =>
      if data.BlockedUntil ≠ 0 ∧ now < data.BlockedUntil then
        let r0 := durSeconds (data.BlockedUntil - now)
        let retryAfterSec := if r0 < 1 then 1 else r0
        (⟨false, data.RequestCount, rl.maxRequests, data.BlockedUntil, retryAfterSec,
          rl.errorMessage⟩, s)
      else
        let p1 : MemoryStorage × Bool :=
          if data.BlockedUntil ≠ 0 ∧ data.BlockedUntil < now then
            (ResetWindow s clientID now, false)
          else (s, true)
        let p2 : MemoryStorage × Bool :=
          if p1.2 ∧ rl.windowDuration ≤ now - data.WindowStart then
            (ResetWindow p1.1 clientID now, false)
          else p1
        let p3 : MemoryStorage × Int :=
          if p2.2 then IncrementRequestCount p2.1 clientID now
          else (SetClientData p2.1 clientID ⟨1, now, 0⟩, 1)
        if rl.maxRequests < p3.2 then
          (⟨false, p3.2, rl.maxRequests, now + rl.blockDuration,
            durSeconds rl.blockDuration, rl.errorMessage⟩,
           BlockClient p3.1 clientID (now + rl.blockDuration))
        else
          (⟨true, p3.2, rl.maxRequests, 0, 0, ""⟩, p3.1)
  | none =>
      let s3 := SetClientData s clientID ⟨1, now, 0⟩
      if rl.maxRequests < 1 then
        (⟨false, 1, rl.maxRequests, now + rl.blockDuration,
          durSeconds rl.blockDuration, rl.errorMessage⟩,
         BlockClient s3 clientID (now + rl.blockDuration))
      else
        (⟨true, 1, rl.maxRequests, 0, 0, ""⟩, s3)

/-- A sequence of `Allow` calls on one client key, threading the store. -/
def runAllow (rl : RateLimiter) (clientID : String) :
    MemoryStorage → List Int → List Result × MemoryStorage
  | s, [] => ([], s)
  | s, t :: ts =>
      match Allow rl s clientID t with
      | (r, s2) =>
          match runAllow rl clientID s2 ts with
          | (rs, s3) => (r :: rs, s3)

/-- A sequence of `AllowOld` calls on one client key, threading the store. -/
def runAllowOld (rl : RateLimiter) (clientID : String) :
    MemoryStorage → List Int → List Result × MemoryStorage
  | s, [] => ([], s)
  | s, t :: ts =>
      match AllowOld rl s clientID t with
      | (r, s2) =>
          match runAllowOld rl clientID s2 ts with
          | (rs, s3) => (r :: rs, s3)

theorem setClient_self (s : MemoryStorage) (clientID : String) (d : ClientData) :
    setClient s clientID d clientID = some d := by
  simp [setClient]

theorem setClient_setClient (s : MemoryStorage) (clientID : String) (a b : ClientData) :
    setClient (setClient s clientID a) clientID b = setClient s clientID b := by
  funext k
  by_cases h : k = clientID <;> simp [setClient, h]

theorem ci_none (s : MemoryStorage) (clientID : String) (now wd mx bd : Int)
    (h : s clientID = none) :
    CheckAndIncrement s clientID now wd mx bd =
      (setClient s clientID ⟨1, now, 0⟩, ⟨1, now, 0⟩, true) := by
  simp only [CheckAndIncrement, h]

theorem ci_blocked (s : MemoryStorage) (clientID : String) (now wd mx bd : Int)
    (d : ClientData) (h : s clientID = some d) (h1 : d.BlockedUntil ≠ 0)
    (h2 : now < d.BlockedUntil) :
    CheckAndIncrement s clientID now wd mx bd = (s, d, false) := by
  simp only [CheckAndIncrement, h]
  rw [if_pos ⟨h1, h2⟩]

theorem ci_expired (s : MemoryStorage) (clientID : String) (now wd mx bd : Int)
    (d : ClientData) (h : s clientID = some d) (h1 : d.BlockedUntil ≠ 0)
    (h2 : d.BlockedUntil < now) :
    CheckAndIncrement s clientID now wd mx bd =
      (setClient s clientID ⟨1, now, 0⟩, ⟨1, now, 0⟩, true) := by
  simp only [CheckAndIncrement, h]
  rw [if_neg (by rintro ⟨-, hlt⟩; omega), if_pos ⟨h1, h2⟩]

theorem ci_window (s : MemoryStorage) (clientID : String) (now wd mx bd : Int)
    (d : ClientData) (h : s clientID = some d)
    (hnb1 : ¬(d.BlockedUntil ≠ 0 ∧ now < d.BlockedUntil))
    (hnb2 : ¬(d.BlockedUntil ≠ 0 ∧ d.BlockedUntil < now))
    (hw : wd ≤ now - d.WindowStart) :
    CheckAndIncrement s clientID now wd mx bd =
      (setClient s clientID ⟨1, now, 0⟩, ⟨1, now, 0⟩, true) := by
  simp only [CheckAndIncrement, h]
  rw [if_neg hnb1, if_neg hnb2, if_pos hw]

theorem ci_inc (s : MemoryStorage) (clientID : String) (now wd mx bd : Int)
    (d : ClientData) (h : s clientID = some d)
    (hnb1 : ¬(d.BlockedUntil ≠ 0 ∧ now < d.BlockedUntil))
    (hnb2 : ¬(d.BlockedUntil ≠ 0 ∧ d.BlockedUntil < now))
    (hw : now - d.WindowStart < wd) :
    CheckAndIncrement s clientID now wd mx bd =
      (setClient s clientID
        ⟨d.RequestCount + 1, d.WindowStart,
          if mx < d.RequestCount + 1 then now + bd else d.BlockedUntil⟩,
       ⟨d.RequestCount + 1, d.WindowStart,
          if mx < d.RequestCount + 1 then now + bd else d.BlockedUntil⟩, true) := by
  simp only [CheckAndIncrement, h]
  rw [if_neg hnb1, if_neg hnb2, if_neg (by omega)]

theorem allow_blocked (rl : RateLimiter) (s : MemoryStorage) (clientID : String)
    (now : Int) (d : ClientData) (h : s clientID = some d) (h1 : d.BlockedUntil ≠ 0)
    (h2 : now < d.BlockedUntil) :
    Allow rl s clientID now =
      (⟨false, d.RequestCount, rl.maxRequests, d.BlockedUntil,
        if durSeconds (d.BlockedUntil - now) < 1 then 1
        else durSeconds (d.BlockedUntil - now), rl.errorMessage⟩, s) := by
  unfold Allow
  rw [ci_blocked s clientID now rl.windowDuration rl.maxRequests rl.blockDuration d h h1 h2]
  rfl

theorem allow_fresh_pos (rl : RateLimiter) (s : MemoryStorage) (clientID : String)
    (now : Int) (h : s clientID = none) (hmx : 1 ≤ rl.maxRequests) :
    Allow rl s clientID now =
      (⟨true, 1, rl.maxRequests, 0, 0, ""⟩, setClient s clientID ⟨1, now, 0⟩) := by
  unfold Allow
  rw [ci_none s clientID now rl.windowDuration rl.maxRequests rl.blockDuration h]
  simp [show ¬ rl.maxRequests < 1 by omega]

theorem allow_fresh_nonpos (rl : RateLimiter) (s : MemoryStorage) (clientID : String)
    (now : Int) (h : s clientID = none) (hmx : rl.maxRequests < 1) :
    Allow rl s clientID now =
      (⟨false, 1, rl.maxRequests, 0, durSeconds rl.blockDuration, rl.errorMessage⟩,
       setClient s clientID ⟨1, now, 0⟩) := by
  unfold Allow
  rw [ci_none s clientID now rl.windowDuration rl.maxRequests rl.blockDuration h]
  simp [hmx]

theorem allow_expired_pos (rl : RateLimiter) (s : MemoryStorage) (clientID : String)
    (now : Int) (d : ClientData) (h : s clientID = some d) (h1 : d.BlockedUntil ≠ 0)
    (h2 : d.BlockedUntil < now) (hmx : 1 ≤ rl.maxRequests) :
    Allow rl s clientID now =
      (⟨true, 1, rl.maxRequests, 0, 0, ""⟩, setClient s clientID ⟨1, now, 0⟩) := by
  unfold Allow
  rw [ci_expired s clientID now rl.windowDuration rl.maxRequests rl.blockDuration d h h1 h2]
  simp [show ¬ rl.maxRequests < 1 by omega]

theorem allow_window_pos (rl : RateLimiter) (s : MemoryStorage) (clientID : String)
    (now : Int) (d : ClientData) (h : s clientID = some d)
    (hnb1 : ¬(d.BlockedUntil ≠ 0 ∧ now < d.BlockedUntil))
    (hnb2 : ¬(d.BlockedUntil ≠ 0 ∧ d.BlockedUntil < now))
    (hw : rl.windowDuration ≤ now - d.WindowStart) (hmx : 1 ≤ rl.maxRequests) :
    Allow rl s clientID now =
      (⟨true, 1, rl.maxRequests, 0, 0, ""⟩, setClient s clientID ⟨1, now, 0⟩) := by
  unfold Allow
  rw [ci_window s clientID now rl.windowDuration rl.maxRequests rl.blockDuration d h
    hnb1 hnb2 hw]
  simp [show ¬ rl.maxRequests < 1 by omega]

theorem allow_inc_allow (rl : RateLimiter) (s : MemoryStorage) (clientID : String)
    (now : Int) (d : ClientData) (h : s clientID = some d)
    (hnb1 : ¬(d.BlockedUntil ≠ 0 ∧ now < d.BlockedUntil))
    (hnb2 : ¬(d.BlockedUntil ≠ 0 ∧ d.BlockedUntil < now))
    (hw : now - d.WindowStart < rl.windowDuration)
    (hle : d.RequestCount + 1 ≤ rl.maxRequests) :
    Allow rl s clientID now =
      (⟨true, d.RequestCount + 1, rl.maxRequests, 0, 0, ""⟩,
       setClient s clientID ⟨d.RequestCount + 1, d.WindowStart, d.BlockedUntil⟩) := by
  unfold Allow
  rw [ci_inc s clientID now rl.windowDuration rl.maxRequests rl.blockDuration d h
    hnb1 hnb2 hw]
  rw [if_neg (show ¬ rl.maxRequests < d.RequestCount + 1 by omega)]
  simp [show ¬ rl.maxRequests < d.RequestCount + 1 by omega]

theorem allow_inc_deny (rl : RateLimiter) (s : MemoryStorage) (clientID : String)
    (now : Int) (d : ClientData) (h : s clientID = some d)
    (hnb1 : ¬(d.BlockedUntil ≠ 0 ∧ now < d.BlockedUntil))
    (hnb2 : ¬(d.BlockedUntil ≠ 0 ∧ d.BlockedUntil < now))
    (hw : now - d.WindowStart < rl.windowDuration)
    (hgt : rl.maxRequests < d.RequestCount + 1) :
    Allow rl s clientID now =
      (⟨false, d.RequestCount + 1, rl.maxRequests, now + rl.blockDuration,
        durSeconds rl.blockDuration, rl.errorMessage⟩,
       setClient s clientID
         ⟨d.RequestCount + 1, d.WindowStart, now + rl.blockDuration⟩) := by
  unfold Allow
  rw [ci_inc s clientID now rl.windowDuration rl.maxRequests rl.blockDuration d h
    hnb1 hnb2 hw]
  rw [if_pos hgt]
  simp [hgt]

theorem allow_expired_nonpos (rl : RateLimiter) (s : MemoryStorage) (clientID : String)
    (now : Int) (d : ClientData) (h : s clientID = some d) (h1 : d.BlockedUntil ≠ 0)
    (h2 : d.BlockedUntil < now) (hmx : rl.maxRequests < 1) :
    Allow rl s clientID now =
      (⟨false, 1, rl.maxRequests, 0, durSeconds rl.blockDuration, rl.errorMessage⟩,
       setClient s clientID ⟨1, now, 0⟩) := by
  unfold Allow
  rw [ci_expired s clientID now rl.windowDuration rl.maxRequests rl.blockDuration d h h1 h2]
  simp [hmx]

theorem allow_window_nonpos (rl : RateLimiter) (s : MemoryStorage) (clientID : String)
    (now : Int) (d : ClientData) (h : s clientID = some d)
    (hnb1 : ¬(d.BlockedUntil ≠ 0 ∧ now < d.BlockedUntil))
    (hnb2 : ¬(d.BlockedUntil ≠ 0 ∧ d.BlockedUntil < now))
    (hw : rl.windowDuration ≤ now - d.WindowStart) (hmx : rl.maxRequests < 1) :
    Allow rl s clientID now =
      (⟨false, 1, rl.maxRequests, 0, durSeconds rl.blockDuration, rl.errorMessage⟩,
       setClient s clientID ⟨1, now, 0⟩) := by
  unfold Allow
  rw [ci_window s clientID now rl.windowDuration rl.maxRequests rl.blockDuration d h
    hnb1 hnb2 hw]
  simp [hmx]

theorem one_le_durSeconds {d : Int} (h : nsPerSecond ≤ d) : 1 ≤ durSeconds d := by
  unfold durSeconds nsPerSecond at *
  rw [Int.tdiv_eq_ediv (by omega) (by omega), Int.le_ediv_iff_mul_le (by omega)]
  omega

/-- Claim C1 (corrected): when a call is denied because the client was already
blocked, `RetryAfterSec` is floored to a minimum of 1; on the deny that trips
the limit, `RetryAfterSec` equals `blockDuration` in whole seconds with no
floor, so it is at least 1 only when `blockDuration` is at least one second.
With `blockDuration ≥ 1s`, every denied decision has `RetryAfterSec ≥ 1`. -/
theorem c1_amended (rl : RateLimiter) (s : MemoryStorage) (clientID : String) (now : Int)
    (hbd : nsPerSecond ≤ rl.blockDuration)
    (hden : (Allow rl s clientID now).1.Allowed = false) :
    1 ≤ (Allow rl s clientID now).1.RetryAfterSec := by
  rcases hci : CheckAndIncrement s clientID now rl.windowDuration rl.maxRequests
      rl.blockDuration with ⟨s2, data, b⟩
  unfold Allow at hden ⊢
  rw [hci] at hden ⊢
  cases b
  · show 1 ≤ (if durSeconds (data.BlockedUntil - now) < 1 then 1
      else durSeconds (data.BlockedUntil - now))
    split <;> omega
  · have hden2 : (if rl.maxRequests < data.RequestCount then
        ((⟨false, data.RequestCount, rl.maxRequests, data.BlockedUntil,
          durSeconds rl.blockDuration, rl.errorMessage⟩ : Result), s2)
      else (⟨true, data.RequestCount, rl.maxRequests, 0, 0, ""⟩, s2)).1.Allowed = false := hden
    show 1 ≤ (if rl.maxRequests < data.RequestCount then
        ((⟨false, data.RequestCount, rl.maxRequests, data.BlockedUntil,
          durSeconds rl.blockDuration, rl.errorMessage⟩ : Result), s2)
      else (⟨true, data.RequestCount, rl.maxRequests, 0, 0, ""⟩, s2)).1.RetryAfterSec
    by_cases hgt : rl.maxRequests < data.RequestCount
    · rw [if_pos hgt]
      exact one_le_durSeconds hbd
    · rw [if_neg hgt] at hden2
      simp at hden2

/-- Claim C1, counterexample to the claim as stated: with `maxRequests = 0`
and a half-second `blockDuration`, the first call on a fresh key is denied
with `RetryAfterSec = 0 < 1`. -/
theorem c1_counterexample :
    (Allow ⟨0, 1000000000, 500000000, "m"⟩ emptyStorage "k" 0).1.Allowed = false ∧
    (Allow ⟨0, 1000000000, 500000000, "m"⟩ emptyStorage "k" 0).1.RetryAfterSec < 1 := by
  decide

/-- Witness for `c1_amended` at a concrete denied call. -/
theorem c1_witness :
    nsPerSecond ≤ (⟨0, 1000000000, 2000000000, "m"⟩ : RateLimiter).blockDuration ∧
    (Allow ⟨0, 1000000000, 2000000000, "m"⟩ emptyStorage "k" 0).1.Allowed = false ∧
    1 ≤ (Allow ⟨0, 1000000000, 2000000000, "m"⟩ emptyStorage "k" 0).1.RetryAfterSec :=
  ⟨by decide, by decide,
   c1_amended ⟨0, 1000000000, 2000000000, "m"⟩ emptyStorage "k" 0 (by decide) (by decide)⟩

/-- Claim C3 (corrected): the first call on a key with no prior state is
allowed with `RequestsMade = 1` provided `maxRequests ≥ 1`; with
`maxRequests ≤ 0` that first call is denied. -/
theorem c3_amended (rl : RateLimiter) (s : MemoryStorage) (clientID : String) (now : Int)
    (h : s clientID = none) (hmx : 1 ≤ rl.maxRequests) :
    (Allow rl s clientID now).1.Allowed = true ∧
    (Allow rl s clientID now).1.RequestsMade = 1 := by
  rw [allow_fresh_pos rl s clientID now h hmx]
  exact ⟨rfl, rfl⟩

/-- Claim C3, counterexample to the claim as stated: with `maxRequests = 0`
the first call on a fresh key is denied, not allowed. -/
theorem c3_counterexample :
    (Allow ⟨0, 1000000000, 1000000000, "m"⟩ emptyStorage "k" 0).1.Allowed = false := by
  decide

/-- Witness for `c3_amended`. -/
theorem c3_witness :
    emptyStorage "k" = none ∧
    (1 : Int) ≤ (⟨1, 100, 100, "m"⟩ : RateLimiter).maxRequests ∧
    ((Allow ⟨1, 100, 100, "m"⟩ emptyStorage "k" 0).1.Allowed = true ∧
     (Allow ⟨1, 100, 100, "m"⟩ emptyStorage "k" 0).1.RequestsMade = 1) :=
  ⟨rfl, by decide, c3_amended ⟨1, 100, 100, "m"⟩ emptyStorage "k" 0 rfl (by decide)⟩

/-- Claim C4 (corrected): with a non-zero `blockedUntil`, the block-expiry
reset happens only for `now` strictly after `blockedUntil` (the source uses
`now.After`), and the resulting decision is allowed only when
`maxRequests ≥ 1`.  At `now = blockedUntil` exactly the call falls through to
the window/increment logic and can be denied without a reset. -/
theorem c4_amended (rl : RateLimiter) (s : MemoryStorage) (clientID : String) (now : Int)
    (d : ClientData) (h : s clientID = some d) (h1 : d.BlockedUntil ≠ 0)
    (h2 : d.BlockedUntil < now) (hmx : 1 ≤ rl.maxRequests) :
    (Allow rl s clientID now).1.Allowed = true ∧
    (Allow rl s clientID now).1.RequestsMade = 1 ∧
    (Allow rl s clientID now).2 clientID = some ⟨1, now, 0⟩ := by
  rw [allow_expired_pos rl s clientID now d h h1 h2 hmx]
  exact ⟨rfl, rfl, setClient_self s clientID ⟨1, now, 0⟩⟩

/-- Claim C4, counterexample to the claim as stated.  First group: with
`maxRequests = 1`, `windowDuration = 10`, `blockDuration = 5`, calls at
times 0 and 1 leave state `{2, 0, 6}`; the call at `now = 6 = blockedUntil`
is denied and the state becomes `{3, 0, 11}` instead of being reset to count
1.  Second group: with `maxRequests = 0` and `now` strictly past the block,
the state is reset but the decision is denied, not allowed. -/
theorem c4_counterexample :
    ((runAllow ⟨1, 10, 5, "m"⟩ "k" emptyStorage [0, 1]).2 "k" = some ⟨2, 0, 6⟩ ∧
     (Allow ⟨1, 10, 5, "m"⟩ (runAllow ⟨1, 10, 5, "m"⟩ "k" emptyStorage [0, 1]).2
        "k" 6).1.Allowed = false ∧
     (Allow ⟨1, 10, 5, "m"⟩ (runAllow ⟨1, 10, 5, "m"⟩ "k" emptyStorage [0, 1]).2
        "k" 6).2 "k" = some ⟨3, 0, 11⟩) ∧
    (Allow ⟨0, 100, 10, "m"⟩ (setClient emptyStorage "k" ⟨5, 0, 3⟩)
        "k" 4).1.Allowed = false := by
  decide

/-- Witness for `c4_amended`. -/
theorem c4_witness :
    (setClient emptyStorage "k" ⟨7, 0, 3⟩) "k" = some ⟨7, 0, 3⟩ ∧
    ((Allow ⟨2, 100, 50, "m"⟩ (setClient emptyStorage "k" ⟨7, 0, 3⟩) "k" 4).1.Allowed = true ∧
     (Allow ⟨2, 100, 50, "m"⟩ (setClient emptyStorage "k" ⟨7, 0, 3⟩) "k" 4).1.RequestsMade = 1 ∧
     (Allow ⟨2, 100, 50, "m"⟩ (setClient emptyStorage "k" ⟨7, 0, 3⟩) "k" 4).2 "k" =
       some ⟨1, 4, 0⟩) :=
  ⟨by decide, c4_amended ⟨2, 100, 50, "m"⟩ (setClient emptyStorage "k" ⟨7, 0, 3⟩) "k" 4
    ⟨7, 0, 3⟩ (by decide) (by decide) (by decide) (by decide)⟩

/-- Claim C5 (confirmed): within the window and not blocked, the call
increments the stored count by exactly one; if the incremented count exceeds
`maxRequests` the stored `blockedUntil` becomes `now + blockDuration` and the
decision is denied reporting the incremented count and
`retryAfter = now + blockDuration`, otherwise the decision is allowed
reporting the incremented count. -/
theorem c5_increment (rl : RateLimiter) (s : MemoryStorage) (clientID : String) (now : Int)
    (d : ClientData) (h : s clientID = some d) (hbu : d.BlockedUntil = 0)
    (hw : now - d.WindowStart < rl.windowDuration) :
    (Allow rl s clientID now).2 clientID =
      some ⟨d.RequestCount + 1, d.WindowStart,
        if rl.maxRequests < d.RequestCount + 1 then now + rl.blockDuration else 0⟩ ∧
    (rl.maxRequests < d.RequestCount + 1 →
      (Allow rl s clientID now).1.Allowed = false ∧
      (Allow rl s clientID now).1.RequestsMade = d.RequestCount + 1 ∧
      (Allow rl s clientID now).1.RetryAfter = now + rl.blockDuration) ∧
    (d.RequestCount + 1 ≤ rl.maxRequests →
      (Allow rl s clientID now).1.Allowed = true ∧
      (Allow rl s clientID now).1.RequestsMade = d.RequestCount + 1) := by
  have hnb1 : ¬(d.BlockedUntil ≠ 0 ∧ now < d.BlockedUntil) := by rw [hbu]; simp
  have hnb2 : ¬(d.BlockedUntil ≠ 0 ∧ d.BlockedUntil < now) := by rw [hbu]; simp
  by_cases hgt : rl.maxRequests < d.RequestCount + 1
  · rw [allow_inc_deny rl s clientID now d h hnb1 hnb2 hw hgt]
    refine ⟨?_, fun _ => ⟨rfl, rfl, rfl⟩, fun hle => absurd hgt (by omega)⟩
    simp [setClient, hgt]
  · rw [allow_inc_allow rl s clientID now d h hnb1 hnb2 hw (by omega)]
    refine ⟨?_, fun hgt2 => absurd hgt2 hgt, fun _ => ⟨rfl, rfl⟩⟩
    simp [setClient, hgt, hbu]

/-- Witness for `c5_increment` at a concrete tripping call. -/
theorem c5_witness :
    (setClient emptyStorage "k" ⟨1, 0, 0⟩) "k" = some ⟨1, 0, 0⟩ ∧
    ((1 : Int) - 0 < (⟨1, 100, 50, "m"⟩ : RateLimiter).windowDuration) ∧
    ((Allow ⟨1, 100, 50, "m"⟩ (setClient emptyStorage "k" ⟨1, 0, 0⟩) "k" 1).2 "k" =
       some ⟨2, 0, if (1 : Int) < 2 then 51 else 0⟩ ∧
     ((1 : Int) < 2 →
       (Allow ⟨1, 100, 50, "m"⟩ (setClient emptyStorage "k" ⟨1, 0, 0⟩) "k" 1).1.Allowed = false ∧
       (Allow ⟨1, 100, 50, "m"⟩ (setClient emptyStorage "k" ⟨1, 0, 0⟩) "k" 1).1.RequestsMade = 2 ∧
       (Allow ⟨1, 100, 50, "m"⟩ (setClient emptyStorage "k" ⟨1, 0, 0⟩) "k" 1).1.RetryAfter = 51) ∧
     ((2 : Int) ≤ 1 →
       (Allow ⟨1, 100, 50, "m"⟩ (setClient emptyStorage "k" ⟨1, 0, 0⟩) "k" 1).1.Allowed = true ∧
       (Allow ⟨1, 100, 50, "m"⟩ (setClient emptyStorage "k" ⟨1, 0, 0⟩) "k" 1).1.RequestsMade = 2)) :=
  ⟨by decide, by decide,
   c5_increment ⟨1, 100, 50, "m"⟩ (setClient emptyStorage "k" ⟨1, 0, 0⟩) "k" 1 ⟨1, 0, 0⟩
     (by decide) (by decide) (by decide)⟩

/-- Claim C6 (confirmed): while a non-zero `blockedUntil` lies strictly in the
future the call is denied, reports the last recorded count and
`retryAfter = blockedUntil`, and the store is left completely unchanged. -/
theorem c6_blocked_frame (rl : RateLimiter) (s : MemoryStorage) (clientID : String)
    (now : Int) (d : ClientData) (h : s clientID = some d) (h1 : d.BlockedUntil ≠ 0)
    (h2 : now < d.BlockedUntil) :
    (Allow rl s clientID now).1.Allowed = false ∧
    (Allow rl s clientID now).1.RequestsMade = d.RequestCount ∧
    (Allow rl s clientID now).1.RetryAfter = d.BlockedUntil ∧
    (Allow rl s clientID now).2 = s := by
  rw [allow_blocked rl s clientID now d h h1 h2]
  exact ⟨rfl, rfl, rfl, rfl⟩

/-- Witness for `c6_blocked_frame`. -/
theorem c6_witness :
    (setClient emptyStorage "k" ⟨3, 0, 10⟩) "k" = some ⟨3, 0, 10⟩ ∧
    ((Allow ⟨1, 100, 100, "m"⟩ (setClient emptyStorage "k" ⟨3, 0, 10⟩) "k" 5).1.Allowed = false ∧
     (Allow ⟨1, 100, 100, "m"⟩ (setClient emptyStorage "k" ⟨3, 0, 10⟩) "k" 5).1.RequestsMade = 3 ∧
     (Allow ⟨1, 100, 100, "m"⟩ (setClient emptyStorage "k" ⟨3, 0, 10⟩) "k" 5).1.RetryAfter = 10 ∧
     (Allow ⟨1, 100, 100, "m"⟩ (setClient emptyStorage "k" ⟨3, 0, 10⟩) "k" 5).2 =
       setClient emptyStorage "k" ⟨3, 0, 10⟩) :=
  ⟨by decide, c6_blocked_frame ⟨1, 100, 100, "m"⟩ (setClient emptyStorage "k" ⟨3, 0, 10⟩)
    "k" 5 ⟨3, 0, 10⟩ (by decide) (by decide) (by decide)⟩

/-- Claim C8 (corrected): with no block and an elapsed window (boundary
`now - windowStart = windowDuration` included) the state is reset to
`{1, now, 0}`; the decision is allowed with `RequestsMade = 1` provided
`maxRequests ≥ 1`, and denied when `maxRequests ≤ 0`. -/
theorem c8_amended (rl : RateLimiter) (s : MemoryStorage) (clientID : String) (now : Int)
    (d : ClientData) (h : s clientID = some d) (hbu : d.BlockedUntil = 0)
    (hw : rl.windowDuration ≤ now - d.WindowStart) (hmx : 1 ≤ rl.maxRequests) :
    (Allow rl s clientID now).1.Allowed = true ∧
    (Allow rl s clientID now).1.RequestsMade = 1 ∧
    (Allow rl s clientID now).2 clientID = some ⟨1, now, 0⟩ := by
  have hnb1 : ¬(d.BlockedUntil ≠ 0 ∧ now < d.BlockedUntil) := by rw [hbu]; simp
  have hnb2 : ¬(d.BlockedUntil ≠ 0 ∧ d.BlockedUntil < now) := by rw [hbu]; simp
  rw [allow_window_pos rl s clientID now d h hnb1 hnb2 hw hmx]
  exact ⟨rfl, rfl, setClient_self s clientID ⟨1, now, 0⟩⟩

/-- Claim C8, counterexample to the claim as stated: with `maxRequests = 0`
the window-elapsed call resets the state but is denied, not allowed. -/
theorem c8_counterexample :
    (Allow ⟨0, 5, 10, "m"⟩ (setClient emptyStorage "k" ⟨1, 0, 0⟩) "k" 10).1.Allowed = false ∧
    (Allow ⟨0, 5, 10, "m"⟩ (setClient emptyStorage "k" ⟨1, 0, 0⟩) "k" 10).2 "k" =
      some ⟨1, 10, 0⟩ := by
  decide

/-- Witness for `c8_amended`, at the exact boundary `now - windowStart =
windowDuration`. -/
theorem c8_witness :
    (setClient emptyStorage "k" ⟨3, 0, 0⟩) "k" = some ⟨3, 0, 0⟩ ∧
    ((Allow ⟨3, 10, 100, "m"⟩ (setClient emptyStorage "k" ⟨3, 0, 0⟩) "k" 10).1.Allowed = true ∧
     (Allow ⟨3, 10, 100, "m"⟩ (setClient emptyStorage "k" ⟨3, 0, 0⟩) "k" 10).1.RequestsMade = 1 ∧
     (Allow ⟨3, 10, 100, "m"⟩ (setClient emptyStorage "k" ⟨3, 0, 0⟩) "k" 10).2 "k" =
       some ⟨1, 10, 0⟩) :=
  ⟨by decide, c8_amended ⟨3, 10, 100, "m"⟩ (setClient emptyStorage "k" ⟨3, 0, 0⟩) "k" 10
    ⟨3, 0, 0⟩ (by decide) (by decide) (by decide) (by decide)⟩

/-- Claim C10 (confirmed): with `maxRequests ≤ 0` a call on a key with no
prior state is denied with the zero timestamp as `RetryAfter`,
`RetryAfterSec` equal to `blockDuration` in whole seconds, `RequestsMade = 1`,
and the store records `{1, now, 0}` — no block is recorded. -/
theorem c10_nonpos_fresh (rl : RateLimiter) (s : MemoryStorage) (clientID : String)
    (now : Int) (h : s clientID = none) (hmx : rl.maxRequests ≤ 0) :
    (Allow rl s clientID now).1.Allowed = false ∧
    (Allow rl s clientID now).1.RetryAfter = 0 ∧
    (Allow rl s clientID now).1.RetryAfterSec = durSeconds rl.blockDuration ∧
    (Allow rl s clientID now).1.RequestsMade = 1 ∧
    (Allow rl s clientID now).2 clientID = some ⟨1, now, 0⟩ := by
  rw [allow_fresh_nonpos rl s clientID now h (by omega)]
  exact ⟨rfl, rfl, rfl, rfl, setClient_self s clientID ⟨1, now, 0⟩⟩

/-- Witness for `c10_nonpos_fresh`. -/
theorem c10_witness :
    emptyStorage "k" = none ∧
    (⟨0, 100, 60000000000, "m"⟩ : RateLimiter).maxRequests ≤ 0 ∧
    ((Allow ⟨0, 100, 60000000000, "m"⟩ emptyStorage "k" 7).1.Allowed = false ∧
     (Allow ⟨0, 100, 60000000000, "m"⟩ emptyStorage "k" 7).1.RetryAfter = 0 ∧
     (Allow ⟨0, 100, 60000000000, "m"⟩ emptyStorage "k" 7).1.RetryAfterSec =
       durSeconds (⟨0, 100, 60000000000, "m"⟩ : RateLimiter).blockDuration ∧
     (Allow ⟨0, 100, 60000000000, "m"⟩ emptyStorage "k" 7).1.RequestsMade = 1 ∧
     (Allow ⟨0, 100, 60000000000, "m"⟩ emptyStorage "k" 7).2 "k" = some ⟨1, 7, 0⟩) :=
  ⟨rfl, by decide, c10_nonpos_fresh ⟨0, 100, 60000000000, "m"⟩ emptyStorage "k" 7 rfl
    (by decide)⟩

theorem setClient_self_inv {s : MemoryStorage} {clientID : String} {d d2 : ClientData}
    (h : setClient s clientID d clientID = some d2) : d2 = d := by
  rw [setClient_self] at h
  cases h
  rfl

theorem allow_nonpos_step (rl : RateLimiter) (hmx : rl.maxRequests ≤ 0)
    (s : MemoryStorage) (clientID : String) (now : Int)
    (hinv : ∀ d, s clientID = some d → 0 ≤ d.RequestCount) :
    (Allow rl s clientID now).1.Allowed = false ∧
    (∀ d, (Allow rl s clientID now).2 clientID = some d → 0 ≤ d.RequestCount) := by
  rcases hs : s clientID with _ | d
  · rw [allow_fresh_nonpos rl s clientID now hs (by omega)]
    refine ⟨rfl, fun d2 hd2 => ?_⟩
    have hd3 : d2 = (⟨1, now, 0⟩ : ClientData) := setClient_self_inv hd2
    simp [hd3]
  · by_cases hb1 : d.BlockedUntil ≠ 0 ∧ now < d.BlockedUntil
    · rw [allow_blocked rl s clientID now d hs hb1.1 hb1.2]
      exact ⟨rfl, hinv⟩
    · by_cases hb2 : d.BlockedUntil ≠ 0 ∧ d.BlockedUntil < now
      · rw [allow_expired_nonpos rl s clientID now d hs hb2.1 hb2.2 (by omega)]
        refine ⟨rfl, fun d2 hd2 => ?_⟩
        have hd3 : d2 = (⟨1, now, 0⟩ : ClientData) := setClient_self_inv hd2
        simp [hd3]
      · by_cases hw : rl.windowDuration ≤ now - d.WindowStart
        · rw [allow_window_nonpos rl s clientID now d hs hb1 hb2 hw (by omega)]
          refine ⟨rfl, fun d2 hd2 => ?_⟩
          have hd3 : d2 = (⟨1, now, 0⟩ : ClientData) := setClient_self_inv hd2
          simp [hd3]
        · have hc := hinv d hs
          rw [allow_inc_deny rl s clientID now d hs hb1 hb2 (by omega) (by omega)]
          refine ⟨rfl, fun d2 hd2 => ?_⟩
          have hd3 : d2 =
              (⟨d.RequestCount + 1, d.WindowStart, now + rl.blockDuration⟩ : ClientData) :=
            setClient_self_inv hd2
          have hge : (0 : Int) ≤ d.RequestCount + 1 := by omega
          simpa [hd3] using hge

theorem runAllow_nonpos (rl : RateLimiter) (hmx : rl.maxRequests ≤ 0) (clientID : String) :
    ∀ (ts : List Int) (s : MemoryStorage),
      (∀ d, s clientID = some d → 0 ≤ d.RequestCount) →
      ∀ r ∈ (runAllow rl clientID s ts).1, r.Allowed = false := by
  intro ts
  induction ts with
  | nil =>
      intro s _ r hr
      simp [runAllow] at hr
  | cons t ts ih =>
      intro s hinv r hr
      obtain ⟨hden, hinv2⟩ := allow_nonpos_step rl hmx s clientID t hinv
      rcases hA : Allow rl s clientID t with ⟨r1, s2⟩
      rw [hA] at hden hinv2
      rcases hR : runAllow rl clientID s2 ts with ⟨rs, s3⟩
      simp only [runAllow, hA, hR, List.mem_cons] at hr
      rcases hr with hr | hr
      · rw [hr]
        exact hden
      · have := ih s2 hinv2 r
        rw [hR] at this
        exact this hr

/-- Claim C7 (confirmed): with `maxRequests = 0` every call in any sequence
starting from an empty store is denied; in particular the first call on the
fresh key is denied with `RequestsMade = 1`. -/
theorem c7_zero_limit (rl : RateLimiter) (hmx : rl.maxRequests = 0) (clientID : String)
    (t : Int) (ts : List Int) :
    (∀ r ∈ (runAllow rl clientID emptyStorage (t :: ts)).1, r.Allowed = false) ∧
    (runAllow rl clientID emptyStorage (t :: ts)).1.head?.map
      (fun r => (r.Allowed, r.RequestsMade)) = some (false, 1) := by
  constructor
  · exact runAllow_nonpos rl (by omega) clientID (t :: ts) emptyStorage
      (fun d hd => by simp [emptyStorage] at hd)
  · have hA := allow_fresh_nonpos rl emptyStorage clientID t rfl (by omega)
    rcases hR : runAllow rl clientID (setClient emptyStorage clientID ⟨1, t, 0⟩) ts
      with ⟨rs, s3⟩
    simp only [runAllow, hA, hR]
    rfl

/-- Witness for `c7_zero_limit`. -/
theorem c7_witness :
    ((⟨0, 50, 20, "m"⟩ : RateLimiter).maxRequests = 0) ∧
    ((∀ r ∈ (runAllow ⟨0, 50, 20, "m"⟩ "k" emptyStorage (0 :: [1, 2])).1,
        r.Allowed = false) ∧
     (runAllow ⟨0, 50, 20, "m"⟩ "k" emptyStorage (0 :: [1, 2])).1.head?.map
       (fun r => (r.Allowed, r.RequestsMade)) = some (false, 1)) :=
  ⟨rfl, c7_zero_limit ⟨0, 50, 20, "m"⟩ rfl "k" 0 [1, 2]⟩

theorem allowOld_blocked (rl : RateLimiter) (s : MemoryStorage) (clientID : String)
    (now : Int) (d : ClientData) (h : s clientID = some d) (h1 : d.BlockedUntil ≠ 0)
    (h2 : now < d.BlockedUntil) :
    AllowOld rl s clientID now =
      (⟨false, d.RequestCount, rl.maxRequests, d.BlockedUntil,
        if durSeconds (d.BlockedUntil - now) < 1 then 1
        else durSeconds (d.BlockedUntil - now), rl.errorMessage⟩, s) := by
  simp only [AllowOld, GetClientData, h]
  rw [if_pos ⟨h1, h2⟩]

theorem allowOld_fresh_pos (rl : RateLimiter) (s : MemoryStorage) (clientID : String)
    (now : Int) (h : s clientID = none) (hmx : 1 ≤ rl.maxRequests) :
    AllowOld rl s clientID now =
      (⟨true, 1, rl.maxRequests, 0, 0, ""⟩, setClient s clientID ⟨1, now, 0⟩) := by
  simp only [AllowOld, GetClientData, h]
  rw [if_neg (by omega)]
  rfl

theorem allowOld_fresh_nonpos (rl : RateLimiter) (s : MemoryStorage) (clientID : String)
    (now : Int) (h : s clientID = none) (hmx : rl.maxRequests < 1) :
    AllowOld rl s clientID now =
      (⟨false, 1, rl.maxRequests, now + rl.blockDuration, durSeconds rl.blockDuration,
        rl.errorMessage⟩, setClient s clientID ⟨1, now, now + rl.blockDuration⟩) := by
  simp only [AllowOld, GetClientData, h]
  rw [if_pos hmx]
  simp [BlockClient, SetClientData, setClient_self, setClient_setClient]

theorem allowOld_expired_pos (rl : RateLimiter) (s : MemoryStorage) (clientID : String)
    (now : Int) (d : ClientData) (h : s clientID = some d) (h1 : d.BlockedUntil ≠ 0)
    (h2 : d.BlockedUntil < now) (hmx : 1 ≤ rl.maxRequests) :
    AllowOld rl s clientID now =
      (⟨true, 1, rl.maxRequests, 0, 0, ""⟩, setClient s clientID ⟨1, now, 0⟩) := by
  have hnb1 : ¬(d.BlockedUntil ≠ 0 ∧ now < d.BlockedUntil) := by rintro ⟨-, hlt⟩; omega
  simp only [AllowOld, GetClientData, h]
  simp [hnb1, h1, h2, ResetWindow, SetClientData, setClient_setClient,
    show ¬ rl.maxRequests < 1 by omega]
  omega

theorem allowOld_window_pos (rl : RateLimiter) (s : MemoryStorage) (clientID : String)
    (now : Int) (d : ClientData) (h : s clientID = some d)
    (hnb1 : ¬(d.BlockedUntil ≠ 0 ∧ now < d.BlockedUntil))
    (hnb2 : ¬(d.BlockedUntil ≠ 0 ∧ d.BlockedUntil < now))
    (hw : rl.windowDuration ≤ now - d.WindowStart) (hmx : 1 ≤ rl.maxRequests) :
    AllowOld rl s clientID now =
      (⟨true, 1, rl.maxRequests, 0, 0, ""⟩, setClient s clientID ⟨1, now, 0⟩) := by
  simp only [AllowOld, GetClientData, h]
  simp [hnb1, hnb2, hw, ResetWindow, SetClientData, setClient_setClient,
    show ¬ rl.maxRequests < 1 by omega]

theorem allowOld_inc_allow (rl : RateLimiter) (s : MemoryStorage) (clientID : String)
    (now : Int) (d : ClientData) (h : s clientID = some d)
    (hnb1 : ¬(d.BlockedUntil ≠ 0 ∧ now < d.BlockedUntil))
    (hnb2 : ¬(d.BlockedUntil ≠ 0 ∧ d.BlockedUntil < now))
    (hw : now - d.WindowStart < rl.windowDuration)
    (hle : d.RequestCount + 1 ≤ rl.maxRequests) :
    AllowOld rl s clientID now =
      (⟨true, d.RequestCount + 1, rl.maxRequests, 0, 0, ""⟩,
       setClient s clientID ⟨d.RequestCount + 1, d.WindowStart, d.BlockedUntil⟩) := by
  simp only [AllowOld, GetClientData, h]
  simp [hnb1, hnb2, show ¬ rl.windowDuration ≤ now - d.WindowStart by omega,
    IncrementRequestCount, h, show ¬ rl.maxRequests < d.RequestCount + 1 by omega]

theorem allowOld_inc_deny (rl : RateLimiter) (s : MemoryStorage) (clientID : String)
    (now : Int) (d : ClientData) (h : s clientID = some d)
    (hnb1 : ¬(d.BlockedUntil ≠ 0 ∧ now < d.BlockedUntil))
    (hnb2 : ¬(d.BlockedUntil ≠ 0 ∧ d.BlockedUntil < now))
    (hw : now - d.WindowStart < rl.windowDuration)
    (hgt : rl.maxRequests < d.RequestCount + 1) :
    AllowOld rl s clientID now =
      (⟨false, d.RequestCount + 1, rl.maxRequests, now + rl.blockDuration,
        durSeconds rl.blockDuration, rl.errorMessage⟩,
       setClient s clientID
         ⟨d.RequestCount + 1, d.WindowStart, now + rl.blockDuration⟩) := by
  simp only [AllowOld, GetClientData, h]
  simp [hnb1, hnb2, show ¬ rl.windowDuration ≤ now - d.WindowStart by omega,
    IncrementRequestCount, h, hgt, BlockClient, setClient_self, setClient_setClient]

theorem allow_eq_allowOld (rl : RateLimiter) (s : MemoryStorage) (clientID : String)
    (now : Int) (hmx : 1 ≤ rl.maxRequests) :
    Allow rl s clientID now = AllowOld rl s clientID now := by
  rcases hs : s clientID with _ | d
  · rw [allow_fresh_pos rl s clientID now hs hmx,
      allowOld_fresh_pos rl s clientID now hs hmx]
  · by_cases hb1 : d.BlockedUntil ≠ 0 ∧ now < d.BlockedUntil
    · rw [allow_blocked rl s clientID now d hs hb1.1 hb1.2,
        allowOld_blocked rl s clientID now d hs hb1.1 hb1.2]
    · by_cases hb2 : d.BlockedUntil ≠ 0 ∧ d.BlockedUntil < now
      · rw [allow_expired_pos rl s clientID now d hs hb2.1 hb2.2 hmx,
          allowOld_expired_pos rl s clientID now d hs hb2.1 hb2.2 hmx]
      · by_cases hw : rl.windowDuration ≤ now - d.WindowStart
        · rw [allow_window_pos rl s clientID now d hs hb1 hb2 hw hmx,
            allowOld_window_pos rl s clientID now d hs hb1 hb2 hw hmx]
        · by_cases hgt : rl.maxRequests < d.RequestCount + 1
          · rw [allow_inc_deny rl s clientID now d hs hb1 hb2 (by omega) hgt,
              allowOld_inc_deny rl s clientID now d hs hb1 hb2 (by omega) hgt]
          · rw [allow_inc_allow rl s clientID now d hs hb1 hb2 (by omega) (by omega),
              allowOld_inc_allow rl s clientID now d hs hb1 hb2 (by omega) (by omega)]

/-- Claim C9 (corrected): the compound-operation `Allow` and the earlier
get-then-update `AllowOld` agree on every call sequence for configurations
with `maxRequests ≥ 1` — equal results and equal stores.  They diverge when
`maxRequests ≤ 0`: on the fresh and reset paths the old variant records a
block and reports `RetryAfter = now + blockDuration`, while the current one
leaves `blockedUntil` zero and reports the zero timestamp. -/
theorem c9_amended (rl : RateLimiter) (clientID : String) (hmx : 1 ≤ rl.maxRequests) :
    ∀ (ts : List Int) (s : MemoryStorage),
      runAllow rl clientID s ts = runAllowOld rl clientID s ts := by
  intro ts
  induction ts with
  | nil => intro s; rfl
  | cons t ts ih =>
      intro s
      simp only [runAllow, runAllowOld]
      rw [← allow_eq_allowOld rl s clientID t hmx]
      rcases hA : Allow rl s clientID t with ⟨r, s2⟩
      simp [ih s2]

/-- Claim C9, counterexample to the claim as stated: with `maxRequests = 0`
the two variants disagree on a fresh key already at the first call, both in
the returned result (`RetryAfter` 0 versus `now + blockDuration`) and in the
stored state (`blockedUntil` 0 versus `now + blockDuration`). -/
theorem c9_counterexample :
    (Allow ⟨0, 10, 5, "m"⟩ emptyStorage "k" 10).1 ≠
      (AllowOld ⟨0, 10, 5, "m"⟩ emptyStorage "k" 10).1 ∧
    (Allow ⟨0, 10, 5, "m"⟩ emptyStorage "k" 10).2 "k" ≠
      (AllowOld ⟨0, 10, 5, "m"⟩ emptyStorage "k" 10).2 "k" := by
  decide

/-- Witness for `c9_amended` on a concrete two-call sequence. -/
theorem c9_witness :
    runAllow ⟨1, 100, 100, "m"⟩ "k" emptyStorage [0, 1] =
      runAllowOld ⟨1, 100, 100, "m"⟩ "k" emptyStorage [0, 1] :=
  c9_amended ⟨1, 100, 100, "m"⟩ "k" (by decide) [0, 1] emptyStorage

theorem runAllow_length (rl : RateLimiter) (clientID : String) :
    ∀ (ts : List Int) (s : MemoryStorage),
      (runAllow rl clientID s ts).1.length = ts.length := by
  intro ts
  induction ts with
  | nil => intro s; simp [runAllow]
  | cons t ts ih =>
      intro s
      rcases hA : Allow rl s clientID t with ⟨r, s2⟩
      rcases hR : runAllow rl clientID s2 ts with ⟨rs, s3⟩
      have hlen := ih s2
      rw [hR] at hlen
      simp only [runAllow, hA, hR]
      simp [hlen]

theorem runAllow_append (rl : RateLimiter) (clientID : String) :
    ∀ (xs ys : List Int) (s : MemoryStorage),
      runAllow rl clientID s (xs ++ ys) =
        ((runAllow rl clientID s xs).1 ++
           (runAllow rl clientID (runAllow rl clientID s xs).2 ys).1,
         (runAllow rl clientID (runAllow rl clientID s xs).2 ys).2) := by
  intro xs
  induction xs with
  | nil => intro ys s; simp [runAllow]
  | cons t xs ih =>
      intro ys s
      rcases hA : Allow rl s clientID t with ⟨r, s2⟩
      simp only [List.cons_append, runAllow, hA, List.append_eq, ih ys s2]

theorem runAllow_phase1 (rl : RateLimiter) (clientID : String) (w0 : Int) :
    ∀ (A : List Int) (s : MemoryStorage) (c : Int),
      s clientID = some ⟨c, w0, 0⟩ →
      (∀ t ∈ A, t - w0 < rl.windowDuration) →
      c + A.length ≤ rl.maxRequests →
      (∀ r ∈ (runAllow rl clientID s A).1, r.Allowed = true) ∧
      (runAllow rl clientID s A).2 clientID = some ⟨c + A.length, w0, 0⟩ := by
  intro A
  induction A with
  | nil =>
      intro s c hs hw hc
      refine ⟨by simp [runAllow], ?_⟩
      simpa [runAllow] using hs
  | cons t A ih =>
      intro s c hs hw hc
      have hwt : t - w0 < rl.windowDuration := hw t (by simp)
      have hA : Allow rl s clientID t =
          (⟨true, c + 1, rl.maxRequests, 0, 0, ""⟩,
           setClient s clientID ⟨c + 1, w0, 0⟩) := by
        have hstep := allow_inc_allow rl s clientID t ⟨c, w0, 0⟩ hs (by simp) (by simp)
          (by simpa using hwt)
          (by show c + 1 ≤ rl.maxRequests
              simp only [List.length_cons] at hc
              push_cast at hc
              omega)
        simpa using hstep
      obtain ⟨hall, hst⟩ := ih (setClient s clientID ⟨c + 1, w0, 0⟩) (c + 1)
        (setClient_self _ _ _) (fun x hx => hw x (by simp [hx]))
        (by simp only [List.length_cons] at hc
            push_cast at hc ⊢
            omega)
      constructor
      · intro r hr
        rcases hrun : runAllow rl clientID (setClient s clientID ⟨c + 1, w0, 0⟩) A
          with ⟨rs, s3⟩
        simp only [runAllow, hA, hrun, List.mem_cons] at hr
        rcases hr with hr | hr
        · rw [hr]
        · rw [hrun] at hall
          exact hall r hr
      · rcases hrun : runAllow rl clientID (setClient s clientID ⟨c + 1, w0, 0⟩) A
          with ⟨rs, s3⟩
        simp only [runAllow, hA, hrun]
        rw [hrun] at hst
        have harith : c + ((t :: A).length : Int) = c + 1 + (A.length : Int) := by
          simp only [List.length_cons]
          push_cast
          ring
        rw [harith]
        exact hst

theorem runAllow_phase2 (rl : RateLimiter) (clientID : String) (d : ClientData)
    (hbu : d.BlockedUntil ≠ 0) :
    ∀ (B : List Int) (s : MemoryStorage),
      s clientID = some d →
      (∀ t ∈ B, t < d.BlockedUntil) →
      (∀ r ∈ (runAllow rl clientID s B).1, r.Allowed = false) ∧
      (runAllow rl clientID s B).2 = s := by
  intro B
  induction B with
  | nil => intro s hs hB; exact ⟨by simp [runAllow], by simp [runAllow]⟩
  | cons t B ih =>
      intro s hs hB
      have hA := allow_blocked rl s clientID t d hs hbu (hB t (by simp))
      obtain ⟨hall, hst⟩ := ih s hs (fun x hx => hB x (by simp [hx]))
      constructor
      · intro r hr
        rcases hrun : runAllow rl clientID s B with ⟨rs, s3⟩
        simp only [runAllow, hA, hrun, List.mem_cons] at hr
        rcases hr with hr | hr
        · rw [hr]
        · rw [hrun] at hall
          exact hall r hr
      · rcases hrun : runAllow rl clientID s B with ⟨rs, s3⟩
        simp only [runAllow, hA, hrun]
        rw [hrun] at hst
        exact hst

/-- Claim C2 (corrected): for `maxRequests = K ≥ 1` and `blockDuration > 0`,
a sequence of `M > K` calls on one fresh key, all within one window and with
no block expiring between calls, yields exactly K allowed and M − K denied
decisions; the stored `requestCount` after the last call is `K + 1` (the
count recorded when the block was set), not M, because the already-blocked
deny path does not increment.  The sequence is written as
`t0 :: (A ++ tb :: B)` with `|A| = K − 1`, so `tb` is the (K+1)-th call and
`M = K + 1 + |B|`. -/
theorem c2_amended (rl : RateLimiter) (clientID : String) (t0 tb : Int)
    (A B : List Int)
    (hbd : 0 < rl.blockDuration)
    (hlen : (A.length : Int) + 1 = rl.maxRequests)
    (hA : ∀ t ∈ A, t - t0 < rl.windowDuration)
    (htb : tb - t0 < rl.windowDuration)
    (htb0 : 0 ≤ tb)
    (hB : ∀ t ∈ B, t < tb + rl.blockDuration) :
    ((runAllow rl clientID emptyStorage (t0 :: (A ++ tb :: B))).1.countP
        (fun r => r.Allowed) : Int) = rl.maxRequests ∧
    ((runAllow rl clientID emptyStorage (t0 :: (A ++ tb :: B))).1.countP
        (fun r => !r.Allowed) : Int) =
      ((t0 :: (A ++ tb :: B)).length : Int) - rl.maxRequests ∧
    (runAllow rl clientID emptyStorage (t0 :: (A ++ tb :: B))).2 clientID =
      some ⟨rl.maxRequests + 1, t0, tb + rl.blockDuration⟩ := by
  have hlen0 : (0 : Int) ≤ (A.length : Int) := Int.natCast_nonneg _
  have hmx : 1 ≤ rl.maxRequests := by omega
  have h1 : Allow rl emptyStorage clientID t0 =
      (⟨true, 1, rl.maxRequests, 0, 0, ""⟩, setClient emptyStorage clientID ⟨1, t0, 0⟩) :=
    allow_fresh_pos rl emptyStorage clientID t0 rfl hmx
  obtain ⟨hallA, hstA⟩ := runAllow_phase1 rl clientID t0 A
    (setClient emptyStorage clientID ⟨1, t0, 0⟩) 1 (setClient_self _ _ _) hA (by omega)
  have htrip : Allow rl (runAllow rl clientID
        (setClient emptyStorage clientID ⟨1, t0, 0⟩) A).2 clientID tb =
      (⟨false, 1 + (A.length : Int) + 1, rl.maxRequests, tb + rl.blockDuration,
        durSeconds rl.blockDuration, rl.errorMessage⟩,
       setClient (runAllow rl clientID
           (setClient emptyStorage clientID ⟨1, t0, 0⟩) A).2 clientID
         ⟨1 + (A.length : Int) + 1, t0, tb + rl.blockDuration⟩) := by
    have hstep := allow_inc_deny rl
      (runAllow rl clientID (setClient emptyStorage clientID ⟨1, t0, 0⟩) A).2 clientID tb
      ⟨1 + (A.length : Int), t0, 0⟩ hstA (by simp) (by simp) (by simpa using htb)
      (by simp only [ClientData.RequestCount]; omega)
    simpa using hstep
  obtain ⟨hallB, hstB⟩ := runAllow_phase2 rl clientID
    ⟨1 + (A.length : Int) + 1, t0, tb + rl.blockDuration⟩ (by simp; omega) B
    (setClient (runAllow rl clientID
        (setClient emptyStorage clientID ⟨1, t0, 0⟩) A).2 clientID
      ⟨1 + (A.length : Int) + 1, t0, tb + rl.blockDuration⟩)
    (setClient_self _ _ _) (fun x hx => by simpa using hB x hx)
  have e1 : runAllow rl clientID emptyStorage (t0 :: (A ++ tb :: B)) =
      ((⟨true, 1, rl.maxRequests, 0, 0, ""⟩ : Result) ::
        (runAllow rl clientID (setClient emptyStorage clientID ⟨1, t0, 0⟩)
          (A ++ tb :: B)).1,
       (runAllow rl clientID (setClient emptyStorage clientID ⟨1, t0, 0⟩)
          (A ++ tb :: B)).2) := by
    rcases hr : runAllow rl clientID (setClient emptyStorage clientID ⟨1, t0, 0⟩)
        (A ++ tb :: B) with ⟨rs, sf⟩
    simp only [runAllow, h1, hr]
  have e2 := runAllow_append rl clientID A (tb :: B)
    (setClient emptyStorage clientID ⟨1, t0, 0⟩)
  have e3 : runAllow rl clientID (runAllow rl clientID
        (setClient emptyStorage clientID ⟨1, t0, 0⟩) A).2 (tb :: B) =
      ((⟨false, 1 + (A.length : Int) + 1, rl.maxRequests, tb + rl.blockDuration,
          durSeconds rl.blockDuration, rl.errorMessage⟩ : Result) ::
        (runAllow rl clientID (setClient (runAllow rl clientID
            (setClient emptyStorage clientID ⟨1, t0, 0⟩) A).2 clientID
          ⟨1 + (A.length : Int) + 1, t0, tb + rl.blockDuration⟩) B).1,
       (runAllow rl clientID (setClient (runAllow rl clientID
            (setClient emptyStorage clientID ⟨1, t0, 0⟩) A).2 clientID
          ⟨1 + (A.length : Int) + 1, t0, tb + rl.blockDuration⟩) B).2) := by
    rcases hr : runAllow rl clientID (setClient (runAllow rl clientID
        (setClient emptyStorage clientID ⟨1, t0, 0⟩) A).2 clientID
      ⟨1 + (A.length : Int) + 1, t0, tb + rl.blockDuration⟩) B with ⟨rs, sf⟩
    simp only [runAllow, htrip, hr]
  have lenA : (runAllow rl clientID (setClient emptyStorage clientID ⟨1, t0, 0⟩) A).1.length
      = A.length := runAllow_length rl clientID A _
  have lenB : (runAllow rl clientID (setClient (runAllow rl clientID
      (setClient emptyStorage clientID ⟨1, t0, 0⟩) A).2 clientID
      ⟨1 + (A.length : Int) + 1, t0, tb + rl.blockDuration⟩) B).1.length = B.length :=
    runAllow_length rl clientID B _
  have ca : (runAllow rl clientID (setClient emptyStorage clientID ⟨1, t0, 0⟩) A).1.countP
      (fun r => r.Allowed) = A.length := by
    rw [List.countP_eq_length.mpr hallA]
    exact lenA
  have ca2 : (runAllow rl clientID (setClient emptyStorage clientID ⟨1, t0, 0⟩) A).1.countP
      (fun r => !r.Allowed) = 0 :=
    List.countP_eq_zero.mpr (fun r hr => by simp [hallA r hr])
  have cb : (runAllow rl clientID (setClient (runAllow rl clientID
      (setClient emptyStorage clientID ⟨1, t0, 0⟩) A).2 clientID
      ⟨1 + (A.length : Int) + 1, t0, tb + rl.blockDuration⟩) B).1.countP
      (fun r => r.Allowed) = 0 :=
    List.countP_eq_zero.mpr (fun r hr => by simp [hallB r hr])
  have cb2 : (runAllow rl clientID (setClient (runAllow rl clientID
      (setClient emptyStorage clientID ⟨1, t0, 0⟩) A).2 clientID
      ⟨1 + (A.length : Int) + 1, t0, tb + rl.blockDuration⟩) B).1.countP
      (fun r => !r.Allowed) = B.length := by
    rw [List.countP_eq_length.mpr (fun r hr => by simp [hallB r hr])]
    exact lenB
  refine ⟨?_, ?_, ?_⟩
  · rw [e1, e2, e3]
    simp only [List.countP_cons, List.countP_append, ca, cb]
    push_cast
    simp
    omega
  · rw [e1, e2, e3]
    simp only [List.countP_cons, List.countP_append, ca2, cb2]
    push_cast
    simp
    omega
  · rw [e1, e2, e3, hstB]
    have harith : rl.maxRequests + 1 = 1 + (A.length : Int) + 1 := by omega
    rw [harith]
    exact setClient_self _ _ _

/-- Claim C2, counterexample to the claim as stated: `maxRequests = 1`,
`blockDuration = 100`, three calls at times 0, 1, 2 on a fresh key give one
allowed and two denied decisions, but the stored `requestCount` is 2, not
`M = 3` — the third call takes the already-blocked path and does not
increment. -/
theorem c2_counterexample :
    ((runAllow ⟨1, 100, 100, "m"⟩ "k" emptyStorage [0, 1, 2]).1.countP
      (fun r => r.Allowed)) = 1 ∧
    ((runAllow ⟨1, 100, 100, "m"⟩ "k" emptyStorage [0, 1, 2]).1.countP
      (fun r => !r.Allowed)) = 2 ∧
    ((runAllow ⟨1, 100, 100, "m"⟩ "k" emptyStorage [0, 1, 2]).2 "k").map
      (fun d => d.RequestCount) = some 2 ∧
    ¬ ((runAllow ⟨1, 100, 100, "m"⟩ "k" emptyStorage [0, 1, 2]).2 "k").map
      (fun d => d.RequestCount) = some 3 := by
  decide

/-- Witness for `c2_amended`: `K = 2`, calls at times 0, 1 (allowed), 2
(trips the block), 3 and 4 (denied while blocked). -/
theorem c2_witness :
    (0 : Int) < (⟨2, 10, 5, "m"⟩ : RateLimiter).blockDuration ∧
    (((runAllow ⟨2, 10, 5, "m"⟩ "k" emptyStorage (0 :: ([1] ++ 2 :: [3, 4]))).1.countP
        (fun r => r.Allowed) : Int) = (⟨2, 10, 5, "m"⟩ : RateLimiter).maxRequests ∧
     ((runAllow ⟨2, 10, 5, "m"⟩ "k" emptyStorage (0 :: ([1] ++ 2 :: [3, 4]))).1.countP
        (fun r => !r.Allowed) : Int) =
       ((0 :: ([1] ++ 2 :: [3, 4]) : List Int).length : Int) -
         (⟨2, 10, 5, "m"⟩ : RateLimiter).maxRequests ∧
     (runAllow ⟨2, 10, 5, "m"⟩ "k" emptyStorage (0 :: ([1] ++ 2 :: [3, 4]))).2 "k" =
       some ⟨(⟨2, 10, 5, "m"⟩ : RateLimiter).maxRequests + 1, 0,
         2 + (⟨2, 10, 5, "m"⟩ : RateLimiter).blockDuration⟩) :=
  ⟨by decide,
   c2_amended ⟨2, 10, 5, "m"⟩ "k" 0 2 [1] [3, 4] (by decide) (by decide)
     (by decide) (by decide) (by decide) (by decide)⟩

end RateLimit
